import Mathlib

/-!
Shallow embedding of the k8s-news-engine pipeline, covering:
- the quality-score rounding tail of `calculate_article_quality_score`
  (src/services/quality-service/main.py);
- `score_corroboration` (src/services/analytics-py/worker.py);
- the pure scoring core of `ReputationAnalyzer`
  (src/services/quality-service/reputation_analyzer.py);
- `update_configuration` and `_get_conservative_defaults`
  (src/services/quality-service/performance_config_manager.py).
Python floats are embedded as rationals, Python ints as `Int`/`Nat`.
-/

namespace NewsEngine

/-- Python's `int(x)` truncation toward zero on a rational. -/
def pyInt (q : ℚ) : ℤ :=
  if 0 ≤ q then ⌊q⌋ else -⌊-q⌋

/-- Lines 193-198 and 214 of quality-service main.py: custom rounding of the
composite quality score (`decimal_part ≤ 0.5` rounds down, else up) followed by
the cap at 100 (`min(final_score, 100)`). -/
def calculate_article_quality_score_round (composite_score : ℚ) : ℤ :=
  let decimal_part := composite_score - pyInt composite_score
  let final_score := if decimal_part ≤ 1/2 then pyInt composite_score else pyInt composite_score + 1
  min final_score 100

/-- Lines 182-188 of quality-service main.py: recency bonus from hours since
publication. -/
def recency_bonus (hours_ago : ℚ) : ℚ :=
  if hours_ago ≤ 6 then 5
  else if hours_ago ≤ 24 then 3
  else if hours_ago ≤ 48 then 1
  else 0

/-- Embeds `score_corroboration` from analytics-py worker.py (lines 166-175).
A claim row carries its `verified_state`, possibly NULL; the code normalizes
with `(c["verified_state"] or "").lower()`.  Returns
(score, ratio, contradiction_rate). -/
def score_corroboration (claims : List (Option String)) : ℚ × ℚ × ℚ :=
  if claims = [] then (0, 0, 0)
  else
    let total : ℚ := claims.length
    let verified : ℚ := claims.countP (fun c => (c.getD "").toLower == "verified")
    let contested : ℚ := claims.countP (fun c => (c.getD "").toLower == "contested")
    let contradiction_rate := contested / total
    let ratio := verified / total
    (100 * ratio * (1 - contradiction_rate), ratio, contradiction_rate)

/-- The spec's `verified_share`: fraction of the event's claims whose
verified_state is "verified". -/
def verified_share (claims : List (Option String)) : ℚ :=
  (claims.countP (fun c => (c.getD "").toLower == "verified") : ℚ) / claims.length

/-- The spec's `contested_share`: fraction of the event's claims whose
verified_state is "contested". -/
def contested_share (claims : List (Option String)) : ℚ :=
  (claims.countP (fun c => (c.getD "").toLower == "contested") : ℚ) / claims.length

/-- One row of `news_agency_reputation_metrics` as read by
reputation_analyzer.py (the fields its scoring functions consume).
`industry_memberships` keeps only the length of the stored list. -/
structure AgencyMetrics where
  pulitzer_awards : ℕ
  murrow_awards : ℕ
  peabody_awards : ℕ
  emmy_awards : ℕ
  george_polk_awards : ℕ
  dupont_awards : ℕ
  spj_awards : ℕ
  other_specialized_awards : ℕ
  press_freedom_ranking : Option ℕ
  industry_memberships : ℕ
  editorial_independence_rating : ℚ
  fact_checking_standards : Bool
  correction_policy_exists : Bool
  retraction_transparency : Bool
  ownership_transparency : Bool
  funding_disclosure : Bool
  ethics_code_public : Bool
deriving DecidableEq, Repr

/-- Embeds `_calculate_awards_score` (reputation_analyzer.py lines 106-125):
major awards 10 points each capped at 40, specialized awards (5/5/2/2 points)
capped at 20. -/
def calculate_awards_score (m : AgencyMetrics) : ℤ :=
  let major_awards_score :=
    min 40 ((m.pulitzer_awards : ℤ) * 10 + (m.murrow_awards : ℤ) * 10 +
            (m.peabody_awards : ℤ) * 10 + (m.emmy_awards : ℤ) * 10)
  let specialized_awards_score :=
    min 20 ((m.george_polk_awards : ℤ) * 5 + (m.dupont_awards : ℤ) * 5 +
            (m.spj_awards : ℤ) * 2 + (m.other_specialized_awards : ℤ) * 2)
  major_awards_score + specialized_awards_score

/-- Embeds `_calculate_press_freedom_score` (reputation_analyzer.py lines 166-179).
Python's `if not ranking` treats both NULL and 0 as "unknown". -/
def calculate_press_freedom_score (ranking : Option ℕ) : ℤ :=
  match ranking with
  | none => 5
  | some r =>
    if r = 0 then 5
    else if r ≤ 20 then 10
    else if r ≤ 50 then 8
    else if r ≤ 100 then 6
    else if r ≤ 150 then 4
    else 2

/-- Embeds `_calculate_professional_standing` (reputation_analyzer.py lines 127-150). -/
def calculate_professional_standing (m : AgencyMetrics) : ℤ :=
  let score := calculate_press_freedom_score m.press_freedom_ranking
  let score := score + min 6 ((m.industry_memberships : ℤ) * 2)
  let score := score + min 4 (pyInt (m.editorial_independence_rating * (2/5)))
  let score := score + (if m.fact_checking_standards then 5 else 0)
  min 25 score

/-- Embeds `_calculate_credibility_score` (reputation_analyzer.py lines 152-164):
3 points per true credibility flag. -/
def calculate_credibility_score (m : AgencyMetrics) : ℤ :=
  (if m.correction_policy_exists then 3 else 0) +
  (if m.retraction_transparency then 3 else 0) +
  (if m.ownership_transparency then 3 else 0) +
  (if m.funding_disclosure then 3 else 0) +
  (if m.ethics_code_public then 3 else 0)

/-- Line 89 of reputation_analyzer.py: the total reputation score computed by
`calculate_reputation_score` on a metrics row,
`min(100, awards + professional + credibility)`. -/
def calculate_reputation_score_total (m : AgencyMetrics) : ℤ :=
  min 100 (calculate_awards_score m + calculate_professional_standing m +
           calculate_credibility_score m)

/-- A configuration value as stored in the grouping-configuration dict
(ints, floats and booleans). -/
inductive ConfigValue where
  | int (n : ℤ)
  | rat (q : ℚ)
  | bool (b : Bool)
deriving DecidableEq, Repr

/-- Embeds `_get_conservative_defaults` (performance_config_manager.py lines 128-140). -/
def get_conservative_defaults : List (String × ConfigValue) :=
  [("min_shared_entities", .int 2),
   ("entity_overlap_threshold", .rat (1/4)),
   ("min_title_keywords", .int 0),
   ("title_keyword_bonus", .rat (1/10)),
   ("max_time_diff_hours", .int 48),
   ("allow_same_outlet", .bool false),
   ("min_entity_length", .int 3),
   ("max_entity_length", .int 50),
   ("entity_noise_threshold", .rat (1/5))]

/-- One saved configuration snapshot (the fields `update_configuration`
writes). -/
structure ConfigSnapshot where
  config : List (String × ConfigValue)
  config_source : String
  config_generation : ℕ
deriving DecidableEq, Repr

/-- In-memory state of PerformanceConfigManager: the current configuration
dict, the generation counter, and the snapshot store. -/
structure ConfigManagerState where
  current_config : List (String × ConfigValue)
  config_generation : ℕ
  snapshots : List ConfigSnapshot
deriving DecidableEq, Repr

/-- Python dict assignment `d[k] = v` on an association list. -/
def dictSet (d : List (String × ConfigValue)) (k : String) (v : ConfigValue) :
    List (String × ConfigValue) :=
  if d.any (fun p => p.1 == k) then
    d.map (fun p => if p.1 == k then (k, v) else p)
  else d ++ [(k, v)]

/-- Python `d.update(updates)`. -/
def dictUpdate (d updates : List (String × ConfigValue)) : List (String × ConfigValue) :=
  updates.foldl (fun acc p => dictSet acc p.1 p.2) d

/-- Embeds `update_configuration` (performance_config_manager.py lines 369-407):
empty updates succeed with no change; any key outside the conservative-default
key set aborts with `False` before anything is applied; otherwise the config
is updated, the generation bumped, and a snapshot appended. -/
def update_configuration (st : ConfigManagerState)
    (updates : List (String × ConfigValue)) (reason : String) :
    Bool × ConfigManagerState :=
  if updates = [] then (true, st)
  else
    let valid_params := get_conservative_defaults.map Prod.fst
    let invalid_params := (updates.map Prod.fst).filter (fun k => ¬ valid_params.contains k)
    if invalid_params ≠ [] then (false, st)
    else
      let new_config := dictUpdate st.current_config updates
      let gen := st.config_generation + 1
      let src := if reason.startsWith "manual" then "manual" else "auto_tune"
      (true, { current_config := new_config,
               config_generation := gen,
               snapshots := st.snapshots ++ [⟨new_config, src, gen⟩] })

/-! ### String helpers

Executable embeddings of the Python string primitives used by the services
(`.lower()`, `.strip()`, slicing, `re.findall(r'[a-z]{3,}', _)`,
`re.sub(r'\s+', ' ', _)`), defined on the character list of a `String`. -/

/-- Python `s.lower()` (ASCII). -/
def py_lower (s : String) : String := ⟨s.data.map Char.toLower⟩

/-- Python `s.strip()`: drop whitespace from both ends. -/
def py_strip (s : String) : String :=
  ⟨((s.data.dropWhile Char.isWhitespace).reverse.dropWhile Char.isWhitespace).reverse⟩

/-- Python `s[:n]` on characters. -/
def py_take (s : String) (n : ℕ) : String := ⟨s.data.take n⟩

/-- Maximal runs of characters satisfying `p`, in order (the accumulator holds
the current run reversed). -/
def runsBy (p : Char → Bool) : List Char → List Char → List (List Char)
  | [], acc => if acc.isEmpty then [] else [acc.reverse]
  | c :: cs, acc =>
    if p c then runsBy p cs (c :: acc)
    else if acc.isEmpty then runsBy p cs [] else acc.reverse :: runsBy p cs []

/-- Embeds `re.findall(r'[a-z]{3,}', s)`: maximal runs of lowercase ASCII letters of
length at least 3. -/
def findall_az3 (s : String) : List String :=
  ((runsBy (fun c => decide ('a' ≤ c ∧ c ≤ 'z')) s.data []).filter
    (fun r => 3 ≤ r.length)).map (fun r => ⟨r⟩)

/-- Embeds `re.sub(r'\s+', ' ', s).strip()`: whitespace-normalize a string. -/
def normalize_ws (s : String) : String :=
  " ".intercalate ((runsBy (fun c => ¬ c.isWhitespace) s.data []).map (fun r => ⟨r⟩))

/-! ### Event grouping (`group_articles_into_events`, quality-service main.py
lines 435-552)

The NER extractor (`extract_key_entities`) and publication-time subtraction
(datetime arithmetic, whose failure the code catches) are abstracted as
function parameters `ext` and `td`: `ext` maps an article's first 2000 text
characters to its entity set, `td` returns the absolute time difference in
hours, `none` standing for a raised exception. -/

/-- An article row as consumed by the grouping loop.  `published_at` is in
hours (rationals), NULL as `none`. -/
structure Article where
  title : String
  text : String
  outlet_name : String
  published_at : Option ℚ
deriving DecidableEq, Repr

/-- The grouping configuration parameters consumed by
`group_articles_into_events` (lines 443-448). -/
structure GroupingConfig where
  min_shared_entities : ℕ
  entity_overlap_threshold : ℚ
  min_title_keywords : ℕ
  title_keyword_bonus : ℚ
  max_time_diff_hours : ℚ
  allow_same_outlet : Bool
deriving DecidableEq, Repr

/-- Lines 471-474 of quality-service main.py: the stopword set removed from
title keywords. -/
def common_words : List String :=
  ["the", "and", "for", "are", "but", "not", "you", "all", "can", "had",
   "her", "was", "one", "our", "out", "day", "get", "has", "him", "his",
   "how", "man", "new", "now", "old", "see", "two", "who", "boy", "did",
   "its", "let", "put", "say", "she", "too", "use", "said", "says", "will"]

/-- Lines 463, 470-475: title keywords of an article,
`set(re.findall(r'[a-z]{3,}', title.lower())) - common_words`. -/
def title_keywords (title : String) : Finset String :=
  (findall_az3 (py_lower title)).toFinset \ common_words.toFinset

/-- Lines 487-500: the time gate.  Passes when either timestamp is NULL;
with both present it fails when the difference exceeds the window or when
computing the difference raises (`td` returning `none`). -/
def time_gate (td : ℚ → ℚ → Option ℚ) (max_time_hours : ℚ) :
    Option ℚ → Option ℚ → Bool
  | some u1, some u2 =>
    match td u1 u2 with
    | some time_diff => decide (¬ time_diff > max_time_hours)
    | none => false
  | _, _ => true

/-- Lines 482-538: the per-candidate admission test of the inner grouping
loop — outlet policy, time gate, shared-entity requirement, then the
title-keyword block. -/
def pair_check (cfg : GroupingConfig) (ext : String → Finset String)
    (td : ℚ → ℚ → Option ℚ) (article1 article2 : Article) : Bool :=
  if ¬ cfg.allow_same_outlet ∧ article2.outlet_name = article1.outlet_name then false
  else if ¬ time_gate td cfg.max_time_diff_hours article1.published_at article2.published_at
    then false
  else
    let entities1 := ext (py_take article1.text 2000)
    let entities2 := ext (py_take article2.text 2000)
    if entities1 = ∅ ∨ entities2 = ∅ then false
    else
      let shared_entities := entities1 ∩ entities2
      let min_entities := min entities1.card entities2.card
      let required_shared : ℚ :=
        max (cfg.min_shared_entities : ℚ) ((min_entities : ℚ) * cfg.entity_overlap_threshold)
      if (shared_entities.card : ℚ) < required_shared then false
      else
        let title1_words := title_keywords article1.title
        let title2_words := title_keywords article2.title
        if title1_words ≠ ∅ ∧ title2_words ≠ ∅ then
          let title_overlap := (title1_words ∩ title2_words).card
          if title_overlap ≥ cfg.min_title_keywords then
            let title_match_bonus :=
              min ((title_overlap : ℚ) * cfg.title_keyword_bonus) (required_shared * (1/2))
            let adjusted_requirement := max 1 (required_shared - title_match_bonus)
            if (shared_entities.card : ℚ) < adjusted_requirement then false else true
          else if 0 < cfg.min_title_keywords then false
          else true
        else true

/-- The inner loop (lines 478-542): scan the later articles, skipping used
indices, and attach every candidate passing `pair_check`, marking it used. -/
def inner_loop (cfg : GroupingConfig) (ext : String → Finset String)
    (td : ℚ → ℚ → Option ℚ) (article1 : Article) :
    List (ℕ × Article) → Finset ℕ → List Article × Finset ℕ
  | [], used => ([], used)
  | (j, article2) :: rest, used =>
    if j ∈ used then inner_loop cfg ext td article1 rest used
    else if pair_check cfg ext td article1 article2 then
      let r := inner_loop cfg ext td article1 rest (insert j used)
      (article2 :: r.1, r.2)
    else inner_loop cfg ext td article1 rest used

/-- The outer loop (lines 454-548): each unused article anchors a new event;
events with at least two members are emitted. -/
def outer_loop (cfg : GroupingConfig) (ext : String → Finset String)
    (td : ℚ → ℚ → Option ℚ) :
    List (ℕ × Article) → Finset ℕ → List (List Article)
  | [], _ => []
  | (i, article1) :: rest, used =>
    if i ∈ used then outer_loop cfg ext td rest used
    else
      let r := inner_loop cfg ext td article1 rest (insert i used)
      let evs := outer_loop cfg ext td rest r.2
      if r.1 ≠ [] then (article1 :: r.1) :: evs else evs

/-- Embeds `group_articles_into_events` (lines 435-552), emitted events in order. -/
def group_articles_into_events (cfg : GroupingConfig) (ext : String → Finset String)
    (td : ℚ → ℚ → Option ℚ) (articles : List Article) : List (List Article) :=
  outer_loop cfg ext td articles.enum ∅

/-- The spec's per-candidate admission test (§4.10.1 algorithm, steps quoted
by claim C3): same gates, but the title-keyword bonus reduces the entity
requirement *before* the single `|S| < required_adjusted` comparison.
Definition follows the spec's words, for comparison with `pair_check`. -/
def pair_check_spec (cfg : GroupingConfig) (ext : String → Finset String)
    (td : ℚ → ℚ → Option ℚ) (article1 article2 : Article) : Bool :=
  if ¬ cfg.allow_same_outlet ∧ article2.outlet_name = article1.outlet_name then false
  else if ¬ time_gate td cfg.max_time_diff_hours article1.published_at article2.published_at
    then false
  else
    let entities1 := ext (py_take article1.text 2000)
    let entities2 := ext (py_take article2.text 2000)
    if entities1 = ∅ ∨ entities2 = ∅ then false
    else
      let shared := entities1 ∩ entities2
      let m := min entities1.card entities2.card
      let required : ℚ :=
        max (cfg.min_shared_entities : ℚ) ((m : ℚ) * cfg.entity_overlap_threshold)
      let t := (title_keywords article1.title ∩ title_keywords article2.title).card
      if t ≥ cfg.min_title_keywords then
        let required_adjusted :=
          required - min ((t : ℚ) * cfg.title_keyword_bonus) (required * (1/2))
        decide (¬ (shared.card : ℚ) < required_adjusted)
      else if 0 < cfg.min_title_keywords then false
      else decide (¬ (shared.card : ℚ) < required)

/-- A concrete entity extractor used to instantiate the abstracted NER
function on test inputs: the set of maximal lowercase-letter runs of length
at least 3 (the regex fallback's simplest shape). -/
def extWords (s : String) : Finset String := (findall_az3 (py_lower s)).toFinset

/-- The concrete time-difference function of the code's normal path:
`abs((t1 - t2).total_seconds() / 3600)`, never raising. -/
def tdAbs (u1 u2 : ℚ) : Option ℚ := some |u1 - u2|

/-! ### Claim extractor (`extract_claims_from_text`, claim-extractor
extractor.py lines 90-150)

spaCy's sentence segmentation is abstracted: the function receives the list
of sentence texts of `doc.sents`.  The claim-indicator regex and the
classifier (`classify_claim_type`, which calls the external TextBlob library)
are parameters of the generic function; faithful implementations of the two
regexes are given below for concrete runs. -/

/-- One extracted claim dict (text, type, confidence). -/
structure ExtractedClaim where
  text : String
  claim_type : String
  confidence : ℚ
deriving DecidableEq, Repr

/-- First pass (lines 104-131): sentences with claim indicators, filtered to
trimmed length in [30, 500], whitespace-normalized, deduplicated on the first
100 lowercased characters.  Returns the final dedup set and the claims. -/
def indicator_pass (claimPat : String → Bool) (classify : String → String) :
    List String → List String → List String × List ExtractedClaim
  | [], processed => (processed, [])
  | sent :: rest, processed =>
    let sent_text := py_strip sent
    if sent_text.length < 30 ∨ sent_text.length > 500 then
      indicator_pass claimPat classify rest processed
    else if claimPat sent_text then
      let claim_text := py_strip (normalize_ws sent_text)
      let claim_key := py_take (py_lower claim_text) 100
      if claim_key ∈ processed then indicator_pass claimPat classify rest processed
      else
        let r := indicator_pass claimPat classify rest (claim_key :: processed)
        (r.1, ⟨claim_text, classify claim_text,
               if claimPat sent_text then 8/10 else 5/10⟩ :: r.2)
    else indicator_pass claimPat classify rest processed

/-- Second pass (lines 133-146): sentences matching the numerical pattern,
with no length filter, deduplicated against the same set, type 'fact',
confidence 0.9. -/
def numerical_pass (numPat : String → Bool) :
    List String → List String → List String × List ExtractedClaim
  | [], processed => (processed, [])
  | sent :: rest, processed =>
    let sent_text := py_strip sent
    if numPat sent_text then
      let claim_key := py_take (py_lower sent_text) 100
      if claim_key ∈ processed then numerical_pass numPat rest processed
      else
        let r := numerical_pass numPat rest (claim_key :: processed)
        (r.1, ⟨sent_text, "fact", 9/10⟩ :: r.2)
    else numerical_pass numPat rest processed

/-- Python's stable descending sort on confidence
(`claims.sort(key=lambda x: x['confidence'], reverse=True)`): insert after
every element of not-smaller confidence. -/
def insert_desc (c : ExtractedClaim) : List ExtractedClaim → List ExtractedClaim
  | [] => [c]
  | d :: rest => if d.confidence < c.confidence then c :: d :: rest else d :: insert_desc c rest

/-- Stable sort by descending confidence. -/
def sort_by_confidence (l : List ExtractedClaim) : List ExtractedClaim :=
  l.foldl (fun acc c => insert_desc c acc) []

/-- Embeds `extract_claims_from_text` (lines 90-150): both passes over the sentence
list (the second seeded with the first's dedup set), sorted by confidence
descending, truncated to 20 claims. -/
def extract_claims_from_text (claimPat numPat : String → Bool)
    (classify : String → String) (sents : List String) : List ExtractedClaim :=
  let r1 := indicator_pass claimPat classify sents []
  let r2 := numerical_pass numPat sents r1.1
  (sort_by_confidence (r1.2 ++ r2.2)).take 20

/-- Substring containment on character lists. -/
def containsSub (hay need : List Char) : Bool :=
  hay.tails.any (fun t => need.isPrefixOf t)

/-- The purely literal claim-indicator alternatives of
`self.claim_indicators` (extractor.py lines 26-47). -/
def literal_indicators : List String :=
  ["according to", "studies show", "research indicates", "data suggests",
   "statistics reveal", "surveys found", "reports indicate", "analysis shows",
   "evidence suggests", "experts say", "officials confirmed", "sources claim",
   "it is estimated", "increased by", "decreased by", "rose to", "fell to"]

/-- The indicator alternative `approximately \d+`. -/
def approx_digit_search (cs : List Char) : Bool :=
  cs.tails.any (fun t =>
    ("approximately ".data.isPrefixOf t : Bool) &&
      match t.drop 14 with
      | c :: _ => c.isDigit
      | [] => false)

/-- The indicator alternatives `\d+\s*percent` and `\d+\s*%`. -/
def digit_percent_search (cs : List Char) : Bool :=
  cs.tails.any (fun t =>
    match t with
    | c :: r =>
      c.isDigit ∧
        (let r3 := (r.dropWhile Char.isDigit).dropWhile Char.isWhitespace
         "percent".data.isPrefixOf r3 ∨ "%".data.isPrefixOf r3)
    | [] => false)

/-- Embeds `self.claim_pattern.search(s)` (case-insensitive alternation of the
claim indicators); ASCII case handled by searching the lowered string. -/
def claimPatImpl (s : String) : Bool :=
  let ls := (py_lower s).data
  literal_indicators.any (fun p => containsSub ls p.data) ∨
    approx_digit_search ls ∨ digit_percent_search ls

/-- The numerical-claim pattern of the second pass (line 138),
`\b\d+[\d,]*\.?\d*\s*(percent|%|million|billion|thousand)`, translated with
maximal munch for each greedy piece. -/
def num_tail_match (cs : List Char) : Bool :=
  let cs1 := cs.dropWhile (fun c => c.isDigit ∨ c = ',')
  let cs2 := match cs1 with
    | '.' :: r => r.dropWhile Char.isDigit
    | _ => cs1
  let cs3 := cs2.dropWhile Char.isWhitespace
  ["percent", "%", "million", "billion", "thousand"].any
    (fun k => k.data.isPrefixOf cs3)

/-- Python `\w` (ASCII). -/
def isWordChar (c : Char) : Bool := c.isAlphanum ∨ c = '_'

/-- Search loop for `numPatImpl`, tracking the previous character for the
word boundary `\b` before the first digit. -/
def num_search : Option Char → List Char → Bool
  | _, [] => false
  | prev, c :: rest =>
    if c.isDigit && (match prev with | none => true | some p => ! isWordChar p) then
      if num_tail_match ((c :: rest).dropWhile Char.isDigit) then true
      else num_search (some c) rest
    else num_search (some c) rest

/-- Embeds `re.search` with the numerical pattern of the second pass. -/
def numPatImpl (s : String) : Bool := num_search none s.data

/-! ### RSS fetcher scheduler (`run_once`, rss-fetcher fetcher.py
lines 201-238)

The feed-level state is the `rss_feeds` table rows (`last_fetched` in
fractional hours).  Feed parsing (whose own errors are caught inside
`parse_feed` and yield an empty entry list) is abstracted as the stored
`entries` list; the per-entry work of `save_article` plus
`link_article_to_events` is the parameter `processEntry`, returning
`Except` to model a raised exception. -/

/-- One `rss_feeds` row. -/
structure Feed where
  id : ℕ
  outlet : String
  active : Bool
  last_fetched : Option ℚ
  fetch_interval_minutes : Option ℚ
  entries : List ℕ
deriving Repr

/-- Embeds `should_fetch_feed` (lines 42-49).  Python's
`feed['fetch_interval_minutes'] or 30` turns both NULL and 0 into 30. -/
def should_fetch_feed (now : ℚ) (feed : Feed) : Bool :=
  match feed.last_fetched with
  | none => true
  | some lf =>
    let interval := match feed.fetch_interval_minutes with
      | none => 30
      | some x => if x = 0 then 30 else x
    decide (now ≥ lf + interval / 60)

/-- Embeds `update_feed_timestamp` (lines 193-199): set `last_fetched = NOW()` for
the one feed id. -/
def update_feed_timestamp (state : List Feed) (fid : ℕ) (now : ℚ) : List Feed :=
  state.map (fun f => if f.id = fid then { f with last_fetched := some now } else f)

/-- The entry loop of `process_feed` (lines 210-222): the first raising entry
aborts the feed. -/
def process_entries (processEntry : Feed → ℕ → Except String Unit) (feed : Feed) :
    List ℕ → Except String Unit
  | [] => .ok ()
  | e :: rest =>
    match processEntry feed e with
    | .ok _ => process_entries processEntry feed rest
    | .error msg => .error msg

/-- Embeds `process_feed` (lines 201-225): empty feeds return early (no timestamp
update); otherwise the first 20 entries are processed and only on full
success is `last_fetched` advanced. -/
def process_feed (processEntry : Feed → ℕ → Except String Unit) (now : ℚ)
    (feed : Feed) (state : List Feed) : Except String (List Feed) :=
  if feed.entries = [] then .ok state
  else
    match process_entries processEntry feed (feed.entries.take 20) with
    | .error msg => .error msg
    | .ok _ => .ok (update_feed_timestamp state feed.id now)

/-- Embeds `run_once` (lines 227-238): iterate the snapshot of active feeds; due
feeds are processed inside try/except, an error leaving the loop to continue
with the state as the failed feed left it. -/
def run_once (processEntry : Feed → ℕ → Except String Unit) (now : ℚ)
    (state : List Feed) : List Feed :=
  let feeds := state.filter (fun f => f.active)
  feeds.foldl (fun st f =>
    if should_fetch_feed now f then
      match process_feed processEntry now f st with
      | .ok st2 => st2
      | .error _ => st
    else st) state

/-! ### Concrete test fixtures -/

/-- The conservative-default grouping configuration
(min_shared_entities=2, overlap=0.25, min_title_keywords=0, bonus=0.1,
window=48h, allow_same_outlet=false). -/
def cfgDefault : GroupingConfig := ⟨2, 1/4, 0, 1/10, 48, false⟩

/-- The conservative defaults with `min_title_keywords = 1`. -/
def cfgTitle : GroupingConfig := ⟨2, 1/4, 1, 1/10, 48, false⟩

/-- Anchor article, outlet "reuters", no timestamp. -/
def artA : Article := ⟨"", "alpha beta", "reuters", none⟩

/-- Candidate article, outlet "bbc", same entities, no timestamp. -/
def artB1 : Article := ⟨"", "alpha beta", "bbc", none⟩

/-- Anchor at hour 48, outlet "reuters". -/
def artT0 : Article := ⟨"", "alpha beta", "reuters", some 48⟩

/-- Candidate at hour 0, outlet "bbc". -/
def artTm : Article := ⟨"", "alpha beta", "bbc", some 0⟩

/-- Candidate at hour 96, outlet "cnn". -/
def artTp : Article := ⟨"", "alpha beta", "cnn", some 96⟩

/-- Candidate with a timestamp parameter, outlet "bbc". -/
def artP (t : ℚ) : Article := ⟨"", "alpha beta", "bbc", some t⟩

/-- Article sharing 10 title keywords but only 1 of 2 entities with
`artS2`. -/
def artS1 : Article :=
  ⟨"alpine bravo charlie delta echo foxtrot golf hotel india juliet",
   "sharedent uniqueone", "reuters", none⟩

/-- Article sharing 10 title keywords but only 1 of 2 entities with
`artS1`. -/
def artS2 : Article :=
  ⟨"alpine bravo charlie delta echo foxtrot golf hotel india juliet",
   "sharedent uniquetwo", "bbc", none⟩

/-- An active feed, never fetched, with one pending entry. -/
def feedFail : Feed := ⟨0, "reuters", true, none, none, [0]⟩

/-- An entry processor whose every entry raises. -/
def peFail : Feed → ℕ → Except String Unit := fun _ _ => .error "db down"

/-- Claims list for corroboration tests: one verified, one contested, one
NULL state. -/
def clC7 : List (Option String) := [some "verified", some "contested", none]

/-- A configuration-manager state for the atomicity test. -/
def stC10 : ConfigManagerState := ⟨[("min_shared_entities", .int 2)], 7, []⟩

/-- An update batch mixing a valid key with an unknown key. -/
def updBad : List (String × ConfigValue) :=
  [("min_shared_entities", .int 3), ("bogus_param", .int 1)]

/-! ### The claims under test, as stated -/

/-- Claim C1 as stated: with `allow_same_outlet = false` no emitted event
contains two articles with the same `outlet_name` (for every pair of
members). -/
def grouping_outlet_policy_claim : Prop :=
  ∀ (cfg : GroupingConfig) (ext : String → Finset String) (td : ℚ → ℚ → Option ℚ)
    (articles : List Article), cfg.allow_same_outlet = false →
    ∀ ev ∈ group_articles_into_events cfg ext td articles,
      ev.Pairwise (fun a b => a.outlet_name ≠ b.outlet_name)

/-- Claim C2 as stated: within every emitted event, any two members'
publication times differ by at most `max_time_diff_hours` (so the span
`max_pub - min_pub` is bounded by the window with tolerance 0). -/
def grouping_time_window_claim : Prop :=
  ∀ (cfg : GroupingConfig) (ext : String → Finset String) (articles : List Article),
    ∀ ev ∈ group_articles_into_events cfg ext tdAbs articles,
      ∀ a ∈ ev, ∀ b ∈ ev, ∀ ta tb : ℚ,
        a.published_at = some ta → b.published_at = some tb →
        |ta - tb| ≤ cfg.max_time_diff_hours

/-- Claim C3 as stated: every pair admitted by the spec's bonus-then-compare
rule (`pair_check_spec`) is attached by the code. -/
def title_bonus_admission_claim : Prop :=
  ∀ (cfg : GroupingConfig) (ext : String → Finset String) (td : ℚ → ℚ → Option ℚ)
    (article1 article2 : Article),
    pair_check_spec cfg ext td article1 article2 = true →
    pair_check cfg ext td article1 article2 = true

/-- Claim C5 as stated: sentences with trimmed length outside [30, 500]
contribute no claims, i.e. if every sentence is out of range the extractor
emits nothing. -/
def sentence_length_claim : Prop :=
  ∀ (claimPat numPat : String → Bool) (classify : String → String) (sents : List String),
    (∀ s ∈ sents, (py_strip s).length < 30 ∨ 500 < (py_strip s).length) →
    extract_claims_from_text claimPat numPat classify sents = []

/-- Claim C6 as stated: a feed whose processing raises still has its
`last_fetched` advanced to `now` by the fetch cycle. -/
def feed_error_timestamp_claim : Prop :=
  ∀ (processEntry : Feed → ℕ → Except String Unit) (now : ℚ) (state : List Feed),
    ∀ f ∈ state, f.active = true → should_fetch_feed now f = true →
    (∃ msg, process_feed processEntry now f state = .error msg) →
    ∀ g ∈ run_once processEntry now state, g.id = f.id → g.last_fetched = some now

/-! ## Theorems -/

/-- Claim C4: the stored quality score is `floor(composite)` when the
fractional part is at most 0.5 and `floor(composite) + 1` when it exceeds
0.5, clamped to at most 100, for every non-negative composite (every
non-negative rational is `|c|` for some `c`); and the five weighted inputs
40.2+40, 40.8+40, 49.8+25, 32.4+25, 36+25 produce 80, 81, 75, 57, 61. -/
theorem claim_C4_quality_rounding_law :
    (∀ c : ℚ, calculate_article_quality_score_round |c| =
      min (if Int.fract |c| ≤ 1/2 then ⌊|c|⌋ else ⌊|c|⌋ + 1) 100) ∧
    calculate_article_quality_score_round (402/10 + 40) = 80 ∧
    calculate_article_quality_score_round (408/10 + 40) = 81 ∧
    calculate_article_quality_score_round (498/10 + 25) = 75 ∧
    calculate_article_quality_score_round (324/10 + 25) = 57 ∧
    calculate_article_quality_score_round (36 + 25) = 61 := by
  constructor
  · intro c
    simp only [calculate_article_quality_score_round, pyInt, if_pos (abs_nonneg c), Int.fract]
  · norm_num [calculate_article_quality_score_round, pyInt, Int.fract]

/-- Claim C7: `score_corroboration` returns 0 on an event with no claims,
and on a non-empty claims list its score is
`100 × verified_share × (1 - contested_share)`. -/
theorem claim_C7_corroboration_score :
    score_corroboration [] = (0, 0, 0) ∧
    ∀ (c : Option String) (cs : List (Option String)),
      (score_corroboration (c :: cs)).1 =
        100 * verified_share (c :: cs) * (1 - contested_share (c :: cs)) := by
  constructor
  · rfl
  · intro c cs
    simp only [score_corroboration, verified_share, contested_share,
      if_neg (List.cons_ne_nil c cs)]

/-- Claim C8: holding every other metrics field equal, one more Pulitzer
award never decreases the total reputation score (both the 40-point major
awards cap and the 100-point total cap preserve monotonicity). -/
theorem claim_C8_reputation_monotone (m : AgencyMetrics) :
    calculate_reputation_score_total m ≤
      calculate_reputation_score_total { m with pulitzer_awards := m.pulitzer_awards + 1 } := by
  simp only [calculate_reputation_score_total, calculate_awards_score,
    calculate_professional_standing, calculate_credibility_score,
    calculate_press_freedom_score]
  apply min_le_min le_rfl
  apply add_le_add_right
  apply add_le_add_right
  apply add_le_add_right
  apply min_le_min le_rfl
  push_cast
  linarith

/-- Claim C10: an update batch containing any parameter name outside the
nine known grouping-configuration keys makes `update_configuration` return
`False` with the configuration, generation counter and snapshot store all
unchanged (valid keys in the same batch are not applied). -/
theorem claim_C10_invalid_key_atomicity (st : ConfigManagerState)
    (updates : List (String × ConfigValue)) (reason : String)
    (h : (updates.map Prod.fst).any
      (fun k => ¬ (get_conservative_defaults.map Prod.fst).contains k) = true) :
    update_configuration st updates reason = (false, st) := by
  obtain ⟨k, hk, hnk⟩ := List.any_eq_true.mp h
  have hne : updates ≠ [] := by
    intro he
    rw [he] at hk
    simp at hk
  have hmemf : k ∈ (updates.map Prod.fst).filter
      (fun k => ¬ (get_conservative_defaults.map Prod.fst).contains k) :=
    List.mem_filter.mpr ⟨hk, hnk⟩
  simp only [update_configuration, if_neg hne]
  rw [if_pos (List.ne_nil_of_mem hmemf)]

/-- Claim C10 witness: a concrete batch with the unknown key "bogus_param"
is rejected and leaves the state untouched. -/
theorem claim_C10_invalid_key_atomicity_witness :
    update_configuration stC10 updBad "manual_update" = (false, stC10) :=
  claim_C10_invalid_key_atomicity stC10 updBad "manual_update" (by decide)

/-- Every article attached by the inner loop passed `pair_check` against the
anchor. -/
theorem inner_loop_mem (cfg : GroupingConfig) (ext : String → Finset String)
    (td : ℚ → ℚ → Option ℚ) (article1 : Article) :
    ∀ (l : List (ℕ × Article)) (used : Finset ℕ) (b : Article),
      b ∈ (inner_loop cfg ext td article1 l used).1 →
      pair_check cfg ext td article1 b = true := by
  intro l
  induction l with
  | nil => intro used b hb; simp [inner_loop] at hb
  | cons p rest ih =>
    obtain ⟨j, a2⟩ := p
    intro used b hb
    simp only [inner_loop] at hb
    split_ifs at hb with h1 h2
    · exact ih used b hb
    · rcases List.mem_cons.mp hb with rfl | hb2
      · exact h2
      · exact ih _ b hb2
    · exact ih used b hb

/-- Every emitted event is its anchor followed by articles that passed
`pair_check` against the anchor. -/
theorem outer_loop_anchor (cfg : GroupingConfig) (ext : String → Finset String)
    (td : ℚ → ℚ → Option ℚ) :
    ∀ (l : List (ℕ × Article)) (used : Finset ℕ) (ev : List Article),
      ev ∈ outer_loop cfg ext td l used →
      ∀ (a : Article) (t : List Article), ev = a :: t →
      ∀ b ∈ t, pair_check cfg ext td a b = true := by
  intro l
  induction l with
  | nil => intro used ev hev; simp [outer_loop] at hev
  | cons p rest ih =>
    obtain ⟨i, a1⟩ := p
    intro used ev hev a t hevat b hb
    simp only [outer_loop] at hev
    split_ifs at hev with h1 h2
    · exact ih used ev hev a t hevat b hb
    · rcases List.mem_cons.mp hev with rfl | hev2
      · injection hevat with ha ht
        subst ha
        subst ht
        exact inner_loop_mem cfg ext td _ rest _ b hb
      · exact ih _ ev hev2 a t hevat b hb
    · exact ih _ ev hev a t hevat b hb

/-- A passing `pair_check` implies: the outlet gate was not triggered, the
time gate passed, and the shared-entity count meets the unreduced
requirement. -/
theorem pair_check_gates {cfg : GroupingConfig} {ext : String → Finset String}
    {td : ℚ → ℚ → Option ℚ} {a1 a2 : Article}
    (h : pair_check cfg ext td a1 a2 = true) :
    ¬ (¬ cfg.allow_same_outlet ∧ a2.outlet_name = a1.outlet_name) ∧
    time_gate td cfg.max_time_diff_hours a1.published_at a2.published_at = true ∧
    ¬ ((ext (py_take a1.text 2000) ∩ ext (py_take a2.text 2000)).card : ℚ) <
      max (cfg.min_shared_entities : ℚ)
        (((min (ext (py_take a1.text 2000)).card (ext (py_take a2.text 2000)).card : ℕ) : ℚ) *
          cfg.entity_overlap_threshold) := by
  simp only [pair_check] at h
  split_ifs at h with h1 h2 h3 h4 h5 h6 h7 h8 <;>
    exact ⟨h1, h2, h4⟩

/-- A passing `pair_check` with `allow_same_outlet = false` separates the
candidate's outlet from the anchor's. -/
theorem pair_check_outlet {cfg : GroupingConfig} {ext : String → Finset String}
    {td : ℚ → ℚ → Option ℚ} {a1 a2 : Article}
    (h : pair_check cfg ext td a1 a2 = true)
    (hallow : cfg.allow_same_outlet = false) : a2.outlet_name ≠ a1.outlet_name := by
  intro heq
  exact (pair_check_gates h).1 ⟨by simp [hallow], heq⟩

/-- With the concrete absolute-difference function, a passing time gate on
two present timestamps bounds their distance by the window. -/
theorem time_gate_tdAbs {maxh ta tb : ℚ}
    (h : time_gate tdAbs maxh (some ta) (some tb) = true) : |ta - tb| ≤ maxh := by
  simp only [time_gate, tdAbs] at h
  exact not_lt.mp (of_decide_eq_true h)

/-- Articles `artA`/`artB1` pass the admission test under the default config. -/
theorem pc_A_B1 : pair_check cfgDefault extWords tdAbs artA artB1 = true := by
  have hcard : (extWords (py_take "alpha beta" 2000)).card = 2 := by decide
  have hne : extWords (py_take "alpha beta" 2000) ≠ ∅ := by decide
  have htk : title_keywords "" = ∅ := by decide
  norm_num [pair_check, cfgDefault, artA, artB1, time_gate, hcard, hne, htk]
  decide

/-- The anchor at hour 48 admits the candidate at hour 0 (gap exactly 48h). -/
theorem pc_T0_Tm : pair_check cfgDefault extWords tdAbs artT0 artTm = true := by
  have hcard : (extWords (py_take "alpha beta" 2000)).card = 2 := by decide
  have hne : extWords (py_take "alpha beta" 2000) ≠ ∅ := by decide
  have htk : title_keywords "" = ∅ := by decide
  norm_num [pair_check, cfgDefault, artT0, artTm, time_gate, tdAbs, hcard, hne, htk]
  decide

/-- The anchor at hour 48 admits the candidate at hour 96 (gap exactly 48h). -/
theorem pc_T0_Tp : pair_check cfgDefault extWords tdAbs artT0 artTp = true := by
  have hcard : (extWords (py_take "alpha beta" 2000)).card = 2 := by decide
  have hne : extWords (py_take "alpha beta" 2000) ≠ ∅ := by decide
  have htk : title_keywords "" = ∅ := by decide
  norm_num [pair_check, cfgDefault, artT0, artTp, time_gate, tdAbs, hcard, hne, htk]
  decide

/-- The null-timestamp anchor admits the candidate regardless of the
candidate's timestamp. -/
theorem pc_A_P (t : ℚ) : pair_check cfgDefault extWords tdAbs artA (artP t) = true := by
  have hcard : (extWords (py_take "alpha beta" 2000)).card = 2 := by decide
  have hne : extWords (py_take "alpha beta" 2000) ≠ ∅ := by decide
  have htk : title_keywords "" = ∅ := by decide
  norm_num [pair_check, cfgDefault, artA, artP, time_gate, hcard, hne, htk]
  decide

/-- The spec's bonus-then-compare rule admits the shared-title pair
`artS1`/`artS2` (1 shared entity against an adjusted requirement of 1). -/
theorem pc_spec_S1_S2 : pair_check_spec cfgTitle extWords tdAbs artS1 artS2 = true := by
  have hc1 : (extWords (py_take "sharedent uniqueone" 2000)).card = 2 := by decide
  have hc2 : (extWords (py_take "sharedent uniquetwo" 2000)).card = 2 := by decide
  have hsh : (extWords (py_take "sharedent uniqueone" 2000) ∩
      extWords (py_take "sharedent uniquetwo" 2000)).card = 1 := by decide
  have hne1 : extWords (py_take "sharedent uniqueone" 2000) ≠ ∅ := by decide
  have hne2 : extWords (py_take "sharedent uniquetwo" 2000) ≠ ∅ := by decide
  have htkc : (title_keywords
      "alpine bravo charlie delta echo foxtrot golf hotel india juliet").card = 10 := by
    decide
  norm_num [pair_check_spec, cfgTitle, artS1, artS2, time_gate, hc1, hc2, hsh, hne1,
    hne2, htkc]
  decide

/-- The code rejects the same pair: 1 shared entity is below the unreduced
requirement of 2, checked before any title bonus. -/
theorem pc_code_S1_S2 : pair_check cfgTitle extWords tdAbs artS1 artS2 = false := by
  have hc1 : (extWords (py_take "sharedent uniqueone" 2000)).card = 2 := by decide
  have hc2 : (extWords (py_take "sharedent uniquetwo" 2000)).card = 2 := by decide
  have hsh : (extWords (py_take "sharedent uniqueone" 2000) ∩
      extWords (py_take "sharedent uniquetwo" 2000)).card = 1 := by decide
  norm_num [pair_check, cfgTitle, artS1, artS2, time_gate, hc1, hc2, hsh]

/-- Grouping the same-outlet batch yields one event with all three
articles. -/
theorem group_eval_same_outlet :
    group_articles_into_events cfgDefault extWords tdAbs [artA, artB1, artB1] =
      [[artA, artB1, artB1]] := by
  simp +decide [group_articles_into_events, outer_loop, inner_loop, List.enum,
    List.enumFrom, pc_A_B1]

/-- Grouping the 0/48/96-hour batch yields one event spanning 96 hours. -/
theorem group_eval_time_span :
    group_articles_into_events cfgDefault extWords tdAbs [artT0, artTm, artTp] =
      [[artT0, artTm, artTp]] := by
  simp +decide [group_articles_into_events, outer_loop, inner_loop, List.enum,
    List.enumFrom, pc_T0_Tm, pc_T0_Tp]

/-- Grouping the null-timestamp anchor with a candidate at any hour yields
one joint event. -/
theorem group_eval_null_time (t : ℚ) :
    group_articles_into_events cfgDefault extWords tdAbs [artA, artP t] =
      [[artA, artP t]] := by
  simp +decide [group_articles_into_events, outer_loop, inner_loop, List.enum,
    List.enumFrom, pc_A_P t]

/-- Claim C1 counterexample: under `allow_same_outlet = false` the default
configuration still emits an event holding two "bbc" articles, because the
code compares candidates only against the anchor's outlet. -/
theorem claim_C1_counterexample : ¬ grouping_outlet_policy_claim := by
  intro h
  have hev := h cfgDefault extWords tdAbs [artA, artB1, artB1] rfl
    [artA, artB1, artB1]
    (by rw [group_eval_same_outlet]; exact List.mem_singleton_self _)
  have h2 := (List.pairwise_cons.mp ((List.pairwise_cons.mp hev).2)).1 artB1
    (List.mem_singleton_self _)
  exact h2 rfl

/-- Claim C1 amended: with `allow_same_outlet = false`, every non-anchor
member of an emitted event has an outlet different from the event's anchor
(first) article — outlets of two non-anchor members may coincide. -/
theorem claim_C1_outlet_distinct_from_anchor (cfg : GroupingConfig)
    (ext : String → Finset String) (td : ℚ → ℚ → Option ℚ) (articles : List Article) :
    ((group_articles_into_events { cfg with allow_same_outlet := false } ext td
        articles).all
      (fun ev => match ev with
        | a :: t => t.all (fun b => b.outlet_name != a.outlet_name)
        | [] => true)) = true := by
  rw [List.all_eq_true]
  intro ev hev
  cases ev with
  | nil => rfl
  | cons a t =>
    show (t.all fun b => b.outlet_name != a.outlet_name) = true
    rw [List.all_eq_true]
    intro b hb
    have hpc := outer_loop_anchor _ ext td _ _ _ hev a t rfl b hb
    exact bne_iff_ne.mpr (pair_check_outlet hpc rfl)

/-- Claim C2 counterexample: with a 48-hour window, an anchor at hour 48
admits members at hours 0 and 96, emitting an event whose publication span
is 96 hours, twice the window. -/
theorem claim_C2_counterexample : ¬ grouping_time_window_claim := by
  intro h
  have hev := h cfgDefault extWords [artT0, artTm, artTp]
    [artT0, artTm, artTp]
    (by rw [group_eval_time_span]; exact List.mem_singleton_self _)
    artTp (List.mem_cons_of_mem _ (List.mem_cons_of_mem _ (List.mem_cons_self _ _)))
    artTm (List.mem_cons_of_mem _ (List.mem_cons_self _ _))
    96 0 rfl rfl
  norm_num [cfgDefault] at hev

/-- Claim C2 amended: every non-anchor member with a present timestamp lies
within `max_time_diff_hours` of the anchor's (present) timestamp; the
emitted event's total span is therefore only bounded by twice the window. -/
theorem claim_C2_members_within_window_of_anchor (cfg : GroupingConfig)
    (ext : String → Finset String) (articles : List Article) :
    ((group_articles_into_events cfg ext tdAbs articles).all
      (fun ev => match ev with
        | a :: t => t.all (fun b =>
            match a.published_at, b.published_at with
            | some ta, some tb => decide (|ta - tb| ≤ cfg.max_time_diff_hours)
            | _, _ => true)
        | [] => true)) = true := by
  rw [List.all_eq_true]
  intro ev hev
  cases ev with
  | nil => rfl
  | cons a t =>
    show (t.all _) = true
    rw [List.all_eq_true]
    intro b hb
    have htg := (pair_check_gates (outer_loop_anchor _ ext tdAbs _ _ _ hev a t rfl b hb)).2.1
    cases hta : a.published_at with
    | none => rfl
    | some ta =>
      cases htb : b.published_at with
      | none => rfl
      | some tb =>
        rw [hta, htb] at htg
        exact decide_eq_true (time_gate_tdAbs htg)

/-- Claim C3 counterexample: a pair with 10 shared title keywords and 1 of 2
shared entities is admitted by the spec's bonus-then-compare rule but
rejected by the code, which tests the unreduced requirement first. -/
theorem claim_C3_counterexample : ¬ title_bonus_admission_claim := by
  intro h
  have h2 := h cfgTitle extWords tdAbs artS1 artS2 pc_spec_S1_S2
  rw [pc_code_S1_S2] at h2
  exact Bool.false_ne_true h2

/-- Claim C3 amended: the title-keyword bonus never admits a pair whose
shared-entity count is below the unreduced requirement
`max(min_shared_entities, m × entity_overlap_threshold)`: the code rejects
such pairs before applying any bonus, so a passing `pair_check` always
carries the unreduced requirement. -/
theorem claim_C3_bonus_never_admits_below_requirement (cfg : GroupingConfig)
    (ext : String → Finset String) (td : ℚ → ℚ → Option ℚ)
    (article1 article2 : Article) :
    pair_check cfg ext td article1 article2 =
      (pair_check cfg ext td article1 article2 &&
        decide (¬ ((ext (py_take article1.text 2000) ∩
            ext (py_take article2.text 2000)).card : ℚ) <
          max (cfg.min_shared_entities : ℚ)
            (((min (ext (py_take article1.text 2000)).card
                (ext (py_take article2.text 2000)).card : ℕ) : ℚ) *
              cfg.entity_overlap_threshold))) := by
  cases hpc : pair_check cfg ext td article1 article2 with
  | false => rfl
  | true =>
    rw [Bool.true_and]
    exact (decide_eq_true (pair_check_gates hpc).2.2).symm

/-- Claim C9: the time gate passes whenever either timestamp is NULL (so the
pair can still cluster at any time distance, witnessed by the concrete
grouping in the last conjunct); with both timestamps present it excludes the
pair when the difference exceeds the window, and a failure while computing
the difference also excludes the pair. -/
theorem claim_C9_null_published_bypasses_time_gate :
    (∀ (td : ℚ → ℚ → Option ℚ) (maxh : ℚ) (t2 : Option ℚ),
      time_gate td maxh none t2 = true) ∧
    (∀ (td : ℚ → ℚ → Option ℚ) (maxh : ℚ) (t1 : Option ℚ),
      time_gate td maxh t1 none = true) ∧
    (∀ (td : ℚ → ℚ → Option ℚ) (maxh u1 u2 d : ℚ), td u1 u2 = some d → d > maxh →
      time_gate td maxh (some u1) (some u2) = false) ∧
    (∀ (td : ℚ → ℚ → Option ℚ) (maxh u1 u2 : ℚ), td u1 u2 = none →
      time_gate td maxh (some u1) (some u2) = false) ∧
    (∀ t : ℚ, group_articles_into_events cfgDefault extWords tdAbs [artA, artP t] =
      [[artA, artP t]]) := by
  refine ⟨?_, ?_, ?_, ?_, group_eval_null_time⟩
  · intro td maxh t2
    cases t2 <;> rfl
  · intro td maxh t1
    cases t1 <;> rfl
  · intro td maxh u1 u2 d hd hgt
    simp only [time_gate, hd]
    exact decide_eq_false (not_not_intro hgt)
  · intro td maxh u1 u2 hd
    simp only [time_gate, hd]

/-- Claim C9 witness: a concrete time-difference outcome above the window
makes the gate exclude the pair. -/
theorem claim_C9_witness :
    time_gate (fun _ _ => some 1) 0 (some 0) (some 0) = false :=
  claim_C9_null_published_bypasses_time_gate.2.2.1 (fun _ _ => some 1) 0 0 0 1 rfl one_pos

/-- Claim C5 counterexample: the 21-character sentence
"Sales rose 5 percent." is skipped by the length-filtered indicator pass but
still contributes a claim through the numerical second pass, which applies
no length filter. -/
theorem claim_C5_counterexample : ¬ sentence_length_claim := by
  intro h
  have h2 := h claimPatImpl numPatImpl (fun _ => "fact") ["Sales rose 5 percent."]
    (by decide)
  have h3 : extract_claims_from_text claimPatImpl numPatImpl (fun _ => "fact")
      ["Sales rose 5 percent."] ≠ [] := by decide
  exact h3 h2

/-- Claim C5 amended: the length boundary holds for the claim-indicator pass
only — every claim it emits comes from a sentence whose trimmed length lies
in [30, 500] (and carries that sentence's normalized text); the numerical
second pass applies no length filter, so out-of-range sentences can still
contribute claims. -/
theorem claim_C5_indicator_pass_length_bounds (claimPat : String → Bool)
    (classify : String → String) :
    ∀ (sents processed : List String),
      ((indicator_pass claimPat classify sents processed).2.all
        (fun c => sents.any (fun s =>
          decide (30 ≤ (py_strip s).length) && decide ((py_strip s).length ≤ 500) &&
            (c.text == py_strip (normalize_ws (py_strip s)))))) = true := by
  intro sents
  induction sents with
  | nil => intro processed; rfl
  | cons s rest ih =>
    intro processed
    rw [List.all_eq_true]
    intro c hc
    simp only [indicator_pass] at hc
    split_ifs at hc with h1 h2 h3
    · obtain ⟨x, hx, hpx⟩ := List.any_eq_true.mp (List.all_eq_true.mp (ih processed) c hc)
      exact List.any_eq_true.mpr ⟨x, List.mem_cons_of_mem _ hx, hpx⟩
    · obtain ⟨x, hx, hpx⟩ := List.any_eq_true.mp (List.all_eq_true.mp (ih processed) c hc)
      exact List.any_eq_true.mpr ⟨x, List.mem_cons_of_mem _ hx, hpx⟩
    · rcases List.mem_cons.mp hc with rfl | hc2
      · apply List.any_eq_true.mpr
        refine ⟨s, List.mem_cons_self _ _, ?_⟩
        push_neg at h1
        simp only [Bool.and_eq_true]
        exact ⟨⟨decide_eq_true h1.1, decide_eq_true h1.2⟩, beq_self_eq_true _⟩
      · obtain ⟨x, hx, hpx⟩ := List.any_eq_true.mp (List.all_eq_true.mp (ih _) c hc2)
        exact List.any_eq_true.mpr ⟨x, List.mem_cons_of_mem _ hx, hpx⟩
    · obtain ⟨x, hx, hpx⟩ := List.any_eq_true.mp (List.all_eq_true.mp (ih processed) c hc)
      exact List.any_eq_true.mpr ⟨x, List.mem_cons_of_mem _ hx, hpx⟩

/-- A feed whose processing raises from one state raises from every state:
the raising depends only on the feed's entries. -/
theorem process_feed_error_any_state {pe : Feed → ℕ → Except String Unit} {now : ℚ}
    {f : Feed} {st0 : List Feed}
    (h : ∃ msg, process_feed pe now f st0 = .error msg) :
    ∀ st : List Feed, ∃ msg, process_feed pe now f st = .error msg := by
  intro st
  obtain ⟨msg, hmsg⟩ := h
  unfold process_feed at hmsg ⊢
  by_cases he : f.entries = []
  · rw [if_pos he] at hmsg
    exact Except.noConfusion hmsg
  · rw [if_neg he] at hmsg ⊢
    cases hpe : process_entries pe f (f.entries.take 20) with
    | ok u =>
      rw [hpe] at hmsg
      exact Except.noConfusion hmsg
    | error m =>
      exact ⟨m, rfl⟩

/-- A successful `process_feed` either left the state alone (empty feed) or
advanced exactly this feed's timestamp. -/
theorem process_feed_ok_cases {pe : Feed → ℕ → Except String Unit} {now : ℚ}
    {fd : Feed} {st st2 : List Feed}
    (h : process_feed pe now fd st = .ok st2) :
    st2 = st ∨ st2 = update_feed_timestamp st fd.id now := by
  unfold process_feed at h
  split_ifs at h with he
  · exact Or.inl (Except.ok.inj h).symm
  · cases hpe : process_entries pe fd (fd.entries.take 20) with
    | error m =>
      rw [hpe] at h
      exact Except.noConfusion h
    | ok u =>
      rw [hpe] at h
      exact Or.inr (Except.ok.inj h).symm

/-- Distinct rows of a feed table with `Nodup` ids are separated by their
ids. -/
theorem feed_id_inj {state : List Feed} (hids : (state.map Feed.id).Nodup)
    {f g : Feed} (hf : f ∈ state) (hg : g ∈ state) (hid : g.id = f.id) : g = f := by
  induction state with
  | nil => cases hf
  | cons x xs ih =>
    rw [List.map_cons, List.nodup_cons] at hids
    rcases List.mem_cons.mp hf with rfl | hf2
    · rcases List.mem_cons.mp hg with rfl | hg2
      · rfl
      · exact absurd (hid ▸ List.mem_map_of_mem Feed.id hg2) hids.1
    · rcases List.mem_cons.mp hg with rfl | hg2
      · exact absurd (hid ▸ List.mem_map_of_mem Feed.id hf2) hids.1
      · exact ih hids.2 hf2 hg2

/-- Claim C6 amended: per-feed errors are caught at the feed boundary
(`run_once` always completes), but a feed whose processing raises keeps its
old `last_fetched` — the timestamp is advanced only after all of a feed's
entries succeed. -/
theorem claim_C6_error_leaves_last_fetched (pe : Feed → ℕ → Except String Unit)
    (now : ℚ) (state : List Feed) (hids : (state.map Feed.id).Nodup)
    (f : Feed) (hf : f ∈ state)
    (herr : ∃ msg, process_feed pe now f state = .error msg) :
    ∀ g ∈ run_once pe now state, g.id = f.id → g.last_fetched = f.last_fetched := by
  have hfail := process_feed_error_any_state herr
  have key : ∀ (fs : List Feed), (∀ fd ∈ fs, fd ∈ state) →
      ∀ (st : List Feed), (∀ g ∈ st, g.id = f.id → g.last_fetched = f.last_fetched) →
      ∀ g ∈ fs.foldl (fun st fd =>
          if should_fetch_feed now fd then
            match process_feed pe now fd st with
            | .ok st2 => st2
            | .error _ => st
          else st) st, g.id = f.id → g.last_fetched = f.last_fetched := by
    intro fs
    induction fs with
    | nil =>
      intro _ st hP g hg
      exact hP g hg
    | cons fd fs ih =>
      intro hsub st hP
      rw [List.foldl_cons]
      apply ih (fun x hx => hsub x (List.mem_cons_of_mem _ hx))
      intro g hg hid
      by_cases hsf : should_fetch_feed now fd = true
      · rw [if_pos hsf] at hg
        cases hres : process_feed pe now fd st with
        | error m =>
          rw [hres] at hg
          exact hP g hg hid
        | ok st2 =>
          rw [hres] at hg
          rcases process_feed_ok_cases hres with rfl | rfl
          · exact hP g hg hid
          · by_cases hfd : fd.id = f.id
            · have : fd = f := feed_id_inj hids hf (hsub fd (List.mem_cons_self _ _)) hfd
              subst this
              obtain ⟨m, hm⟩ := hfail st
              rw [hm] at hres
              exact absurd hres (by simp)
            · simp only [update_feed_timestamp] at hg
              obtain ⟨g0, hg0, hgeq⟩ := List.mem_map.mp hg
              by_cases hg0id : g0.id = fd.id
              · rw [if_pos hg0id] at hgeq
                subst hgeq
                have hcontra : fd.id = f.id := by
                  rw [← hg0id]
                  exact hid
                exact absurd hcontra hfd
              · rw [if_neg hg0id] at hgeq
                subst hgeq
                exact hP g0 hg0 hid
      · rw [if_neg hsf] at hg
        exact hP g hg hid
  intro g hg hid
  have hP0 : ∀ g ∈ state, g.id = f.id → g.last_fetched = f.last_fetched := by
    intro g hgs hgid
    rw [feed_id_inj hids hf hgs hgid]
  simp only [run_once] at hg
  exact key (state.filter (fun x => x.active)) (fun x hx => List.mem_of_mem_filter hx)
    state hP0 g hg hid

/-- Claim C6 counterexample: a feed whose single entry raises keeps
`last_fetched = NULL` after the fetch cycle; the claimed advance to `now`
does not happen. -/
theorem claim_C6_counterexample : ¬ feed_error_timestamp_claim := by
  intro h
  have h2 := h peFail 1 [feedFail] feedFail (List.mem_singleton_self _) rfl rfl
    ⟨"db down", rfl⟩ feedFail (by exact List.mem_singleton_self _) rfl
  exact Option.noConfusion h2

/-- Claim C6 witness: the amended theorem applied to the concrete raising
feed — its `last_fetched` after the cycle is its old value. -/
theorem claim_C6_witness : feedFail.last_fetched = feedFail.last_fetched :=
  claim_C6_error_leaves_last_fetched peFail 1 [feedFail] (by decide) feedFail
    (List.mem_singleton_self _) ⟨"db down", rfl⟩ feedFail
    (by exact List.mem_singleton_self _) rfl

end NewsEngine
